import Mathlib

/-!
Shallow embedding of `src/app.py` (stock_streamlit): a Streamlit dashboard
that resolves a KRX company name or literal 6-digit ticker, fetches a daily
price series, derives 20/60/120-day rolling means, renders summary metrics,
a chart, a descending table and an Excel export.

External effects are modelled explicitly:
  * the raw KRX listing fetch (`pd.read_html`) is a parameter of type
    `Except String (List (String × Nat))` — either the parsed rows
    (company name, numeric ticker code) or a raised exception;
  * the price fetch (`fdr.DataReader`) is a parameter
    `fetch : String → List Row`;
  * every Streamlit render call becomes an `Event` appended to the output
    trace, and a Python exception caught by the top-level handler becomes a
    final `Event.errorMsg` after which nothing further renders.
-/

namespace StockApp

/-- Models Python `str.isdigit` on a single character: true for characters
with the Unicode Digit property.  Enumerated here over the code-point ranges
this development uses: ASCII digits, Arabic-Indic digits, superscript and
subscript digits, and fullwidth digits. -/
def pyIsDigit (c : Char) : Bool :=
  (0x30 ≤ c.toNat && c.toNat ≤ 0x39) ||
  (c.toNat == 0xB2 || c.toNat == 0xB3 || c.toNat == 0xB9) ||
  (c.toNat == 0x2070 || (0x2074 ≤ c.toNat && c.toNat ≤ 0x2079)) ||
  (0x2080 ≤ c.toNat && c.toNat ≤ 0x2089) ||
  (0x660 ≤ c.toNat && c.toNat ≤ 0x669) ||
  (0xFF10 ≤ c.toNat && c.toNat ≤ 0xFF19)

/-- Characters of Unicode category Nd (decimal digits) among the ranges
modelled by `pyIsDigit`: ASCII, Arabic-Indic and fullwidth digits.
Superscript and subscript digits are `pyIsDigit` but not decimal. -/
def isDecimalDigitChar (c : Char) : Bool :=
  (0x30 ≤ c.toNat && c.toNat ≤ 0x39) ||
  (0x660 ≤ c.toNat && c.toNat ≤ 0x669) ||
  (0xFF10 ≤ c.toNat && c.toNat ≤ 0xFF19)

/-- Python `str.isdigit`: false on the empty string, otherwise true iff
every character is a digit character. -/
def str_isdigit (s : String) : Bool :=
  !s.data.isEmpty && s.data.all pyIsDigit

/-- Python `f-string` formatting with format spec `06`: decimal rendering of
the numeric ticker code, left-padded with zeros to a minimum width of 6. -/
def format06 (n : Nat) : String :=
  let s := toString n
  String.mk (List.replicate (6 - s.length) '0') ++ s

/-- `get_krx_company_list` (src/app.py lines 12-23).  Takes the outcome of
the `pd.read_html` fetch of the KRX listing page; on success keeps the
(회사명, 종목코드) columns with the code zero-padded to 6 digits, on any
exception returns the empty directory and signals the distinct
"directory unavailable" condition via `st.error` (the Boolean component:
`true` iff the error banner was shown). -/
def get_krx_company_list (raw : Except String (List (String × Nat))) :
    List (String × String) × Bool :=
  match raw with
  | Except.ok rows => (rows.map (fun p => (p.1, format06 p.2)), false)
  | Except.error _ => ([], true)

/-- The `ValueError` message raised when a company name has no directory
match (src/app.py line 34): it carries the user input followed by the hint
to retry with a literal 6-digit ticker.  (The source wraps the name in
single quotes; the quotes are elided here as pure presentation.) -/
def notFoundMessage (company_name : String) : String :=
  company_name ++ "을 찾을 수 없습니다. 종목코드 6자리를 직접 입력해보세요."

/-- The exact-match lookup in the else-branch of `get_stock_code_by_company`
(src/app.py lines 29-34): filter directory rows whose 회사명 equals the
input (exact, case-sensitive string equality), take the first code, raise
`ValueError` when there is none. -/
def lookupByName (company_df : List (String × String)) (company_name : String) :
    Except String String :=
  match (company_df.filter (fun p => p.1 == company_name)).map Prod.snd with
  | [] => Except.error (notFoundMessage company_name)
  | c :: _ => Except.ok c

/-- `get_stock_code_by_company` (src/app.py lines 25-34): a 6-character
all-digit input is returned unchanged without consulting the directory;
anything else is resolved by exact name match against the directory built
from the raw listing fetch. -/
def get_stock_code_by_company (raw : Except String (List (String × Nat)))
    (company_name : String) : Except String String :=
  if str_isdigit company_name ∧ company_name.length = 6 then
    Except.ok company_name
  else
    lookupByName (get_krx_company_list raw).1 company_name

/-- One trading row of the fetched `price_df`: the date index plus the
Open/High/Low/Close/Volume columns returned by `fdr.DataReader`.  Dates are
modelled as naturals ordered chronologically; prices and volume as exact
rationals (the provider delivers decimal numbers). -/
structure Row where
  date : ℕ
  Open : ℚ
  High : ℚ
  Low : ℚ
  Close : ℚ
  Volume : ℚ
deriving DecidableEq, Repr

/-- A row of `price_df` after the MA20/MA60/MA120 column assignments
(src/app.py lines 76-78); `none` models a NaN cell. -/
structure RowExt where
  date : ℕ
  Open : ℚ
  High : ℚ
  Low : ℚ
  Close : ℚ
  Volume : ℚ
  MA20 : Option ℚ
  MA60 : Option ℚ
  MA120 : Option ℚ
deriving DecidableEq, Repr

/-- `Series.rolling(window=w).mean()` with pandas defaults
(`min_periods = w`): the cell at 0-indexed row `i` is NaN (`none`) until a
full window of `w` rows exists, i.e. until `w ≤ i + 1`, and is then the
arithmetic mean of elements `i - w + 1 .. i`. -/
def rollingMean (xs : List ℚ) (w : ℕ) : List (Option ℚ) :=
  (List.range xs.length).map (fun i =>
    if w ≤ i + 1 then some ((((xs.drop (i + 1 - w)).take w).sum) / (w : ℚ)) else none)

/-- Index-aligned assignment of the three MA columns onto the rows, as
pandas column assignment aligns by row index. -/
def attach3 : List Row → List (Option ℚ) → List (Option ℚ) → List (Option ℚ) → List RowExt
  | r :: rs, a :: as2, b :: bs2, c :: cs2 =>
      { date := r.date, Open := r.Open, High := r.High, Low := r.Low,
        Close := r.Close, Volume := r.Volume,
        MA20 := a, MA60 := b, MA120 := c } :: attach3 rs as2 bs2 cs2
  | _, _, _, _ => []

/-- The Close column of the fetched frame. -/
def closes (df : List Row) : List ℚ := df.map Row.Close

/-- The three MA column assignments of src/app.py lines 76-78; each column
is the rolling mean of the Close column for its own window. -/
def computeMAs (df : List Row) : List RowExt :=
  attach3 df (rollingMean (closes df) 20) (rollingMean (closes df) 60)
    (rollingMean (closes df) 120)

/-- Python `int(...)` on a finite number: truncation toward zero. -/
def pyInt (q : ℚ) : ℤ := if 0 ≤ q then ⌊q⌋ else ⌈q⌉

/-- The `:.2f` display formatting of the change rate: rounding to the
nearest hundredth (ties modelled upward). -/
def displayRate (q : ℚ) : ℚ := (⌊q * 100 + 1 / 2⌋ : ℚ) / 100

/-- `curr_price = int(price_df['Close'].iloc[-1])` (line 83). -/
def currPrice (df : List Row) : ℤ := pyInt ((closes df).getD (df.length - 1) 0)

/-- `prev_price = int(price_df['Close'].iloc[-2])` (line 84); well-defined
only when the series has at least 2 rows (otherwise `iloc[-2]` raises). -/
def prevPrice (df : List Row) : ℤ := pyInt ((closes df).getD (df.length - 2) 0)

/-- `change = curr_price - prev_price` (line 85). -/
def changeVal (df : List Row) : ℤ := currPrice df - prevPrice df

/-- `change_rate = (change / prev_price) * 100` (line 86); raises
`ZeroDivisionError` when `prev_price = 0`. -/
def changeRate (df : List Row) : ℚ :=
  ((changeVal df : ℚ) / (prevPrice df : ℚ)) * 100

/-- `int(price_df['Volume'].iloc[-1])` (line 90). -/
def lastVolume (df : List Row) : ℤ :=
  pyInt ((df.map Row.Volume).getD (df.length - 1) 0)

/-- `price_df['MA20'].iloc[-1]` (line 91); `int(...)` of a `none` (NaN)
cell raises `ValueError`. -/
def ma20Last (df : List Row) : Option ℚ :=
  (rollingMean (closes df) 20).getD (df.length - 1) none

/-- Descending insertion by date, for `sort_index(ascending=False)`. -/
def insertDesc (r : RowExt) : List RowExt → List RowExt
  | [] => [r]
  | x :: xs => if x.date ≤ r.date then r :: x :: xs else x :: insertDesc r xs

/-- `price_df.sort_index(ascending=False)` (line 177): the rows sorted by
date descending, used only for the on-screen table. -/
def sortDesc (l : List RowExt) : List RowExt := l.foldr insertDesc []

/-- `price_df.to_excel(writer, index=True, sheet_name='Stock_Data')`
(line 180): the single sheet, one entry per row in the frame's own order,
carrying the date as row index plus all eight columns; a NaN MA cell
serializes as an empty cell (`none`). -/
def toExcel (l : List RowExt) : List (ℕ × List (Option ℚ)) :=
  l.map (fun r =>
    (r.date, [some r.Open, some r.High, some r.Low, some r.Close,
      some r.Volume, r.MA20, r.MA60, r.MA120]))

/-- Re-reading one exported sheet row. -/
def rowFromExcel : ℕ × List (Option ℚ) → Option RowExt
  | (d, [some o, some h, some l, some c, some v, a, b, m]) =>
      some { date := d, Open := o, High := h, Low := l, Close := c,
             Volume := v, MA20 := a, MA60 := b, MA120 := m }
  | _ => none

/-- Re-reading an exported sheet: parse each row in order. -/
def fromExcel : List (ℕ × List (Option ℚ)) → Option (List RowExt)
  | [] => some []
  | x :: xs =>
      match rowFromExcel x, fromExcel xs with
      | some r, some rs => some (r :: rs)
      | _, _ => none

/-- The informational message of the empty-series branch (line 70). -/
def noDataMsg : String := "해당 기간의 주가 데이터가 없습니다."

/-- The top-level exception handler display (line 184). -/
def genericError (detail : String) : String := "오류가 발생했습니다: " ++ detail

/-- The pandas `IndexError` text raised by `iloc[-2]` on a 1-row frame. -/
def indexErrorDetail : String := "single positional indexer is out-of-bounds"

/-- The `ZeroDivisionError` text raised at line 86 when `prev_price` is 0. -/
def zeroDivDetail : String := "division by zero"

/-- The `ValueError` text raised at line 91 by `int` of a NaN MA20 cell. -/
def nanIntDetail : String := "cannot convert float NaN to integer"

/-- One rendered Streamlit element, in render order.  `errorMsg` is the
`st.error` of the top-level handler; once it renders, nothing follows. -/
inductive Event where
  | warning
  | dateError
  | info (msg : String)
  | caption
  | subheader (company_name stock_code : String)
  | metric1 (curr change : ℤ) (rateDisplayed : ℚ)
  | metric2 (volume : ℤ)
  | metric3 (ma20 : ℤ)
  | chart
  | dataTable (rows : List RowExt)
  | excelExport (sheet : List (ℕ × List (Option ℚ)))
  | downloadButton (file_name : String)
  | errorMsg (msg : String)
deriving DecidableEq, Repr

/-- The render trace of src/app.py lines 72-181 for a non-empty fetched
series: caption and subheader render first; `iloc[-2]` aborts a 1-row
frame; a zero previous price aborts before any metric; a NaN latest MA20
aborts after the first two metrics; otherwise the full
metrics/chart/table/export triad renders. -/
def renderSeries (company_name stock_code : String) (df : List Row) : List Event :=
  if df.length < 2 then
    [Event.caption, Event.subheader company_name stock_code,
     Event.errorMsg (genericError indexErrorDetail)]
  else if prevPrice df = 0 then
    [Event.caption, Event.subheader company_name stock_code,
     Event.errorMsg (genericError zeroDivDetail)]
  else
    match ma20Last df with
    | none =>
        [Event.caption, Event.subheader company_name stock_code,
         Event.metric1 (currPrice df) (changeVal df) (displayRate (changeRate df)),
         Event.metric2 (lastVolume df),
         Event.errorMsg (genericError nanIntDetail)]
    | some m =>
        [Event.caption, Event.subheader company_name stock_code,
         Event.metric1 (currPrice df) (changeVal df) (displayRate (changeRate df)),
         Event.metric2 (lastVolume df),
         Event.metric3 (pyInt m),
         Event.chart,
         Event.dataTable (sortDesc (computeMAs df)),
         Event.excelExport (toExcel (computeMAs df)),
         Event.downloadButton (company_name ++ "_주가데이터.xlsx")]

/-- The per-click main logic (src/app.py lines 55-184): empty name warns;
an incomplete date range errors; a resolver `ValueError` is caught by the
top-level handler; an empty fetched series shows the informational no-data
message; otherwise the series render trace follows. -/
def runMain (raw : Except String (List (String × Nat))) (company_name : String)
    (numDates : ℕ) (fetch : String → List Row) : List Event :=
  if company_name = "" then [Event.warning]
  else if numDates < 2 then [Event.dateError]
  else
    match get_stock_code_by_company raw company_name with
    | Except.error e => [Event.errorMsg (genericError e)]
    | Except.ok stock_code =>
        if (fetch stock_code).isEmpty then [Event.info noDataMsg]
        else renderSeries company_name stock_code (fetch stock_code)

/-- Does a trace contain the top-level error banner? -/
def isError : Event → Bool
  | Event.errorMsg _ => true
  | _ => false

/-- Is an event one of the three summary metric panels (lines 89-91)? -/
def isMetricEvent : Event → Bool
  | Event.metric1 _ _ _ => true
  | Event.metric2 _ => true
  | Event.metric3 _ => true
  | _ => false

/-- A trace shows at least one summary metric panel. -/
def hasMetrics (evs : List Event) : Bool := evs.any isMetricEvent

/-- A trace shows the chart. -/
def hasChart (evs : List Event) : Bool :=
  evs.any (fun e => e == Event.chart)

/-- A trace shows the data table. -/
def hasTable (evs : List Event) : Bool :=
  evs.any (fun e => match e with | Event.dataTable _ => true | _ => false)

/-- A trace shows the Excel export. -/
def hasExport (evs : List Event) : Bool :=
  evs.any (fun e => match e with | Event.excelExport _ => true | _ => false)

/-- A trace contains the error banner. -/
def hasError (evs : List Event) : Bool := evs.any isError

/-- Number of error banners in a trace. -/
def countErrors (evs : List Event) : ℕ := evs.countP (fun e => isError e)

/-- The final rendered element is the error banner. -/
def lastIsError (evs : List Event) : Bool :=
  match evs.getLast? with
  | some e => isError e
  | none => false

/-- Sample row constructor for concrete test series. -/
def sampleRow (d : ℕ) (c : ℚ) : Row :=
  { date := d, Open := c, High := c, Low := c, Close := c, Volume := 10 }

/-- A 20-row ascending sample series with closes 1..20. -/
def sampleDf20 : List Row :=
  [sampleRow 0 1, sampleRow 1 2, sampleRow 2 3, sampleRow 3 4, sampleRow 4 5,
   sampleRow 5 6, sampleRow 6 7, sampleRow 7 8, sampleRow 8 9, sampleRow 9 10,
   sampleRow 10 11, sampleRow 11 12, sampleRow 12 13, sampleRow 13 14,
   sampleRow 14 15, sampleRow 15 16, sampleRow 16 17, sampleRow 17 18,
   sampleRow 18 19, sampleRow 19 20]

/-- A 2-row ascending sample series with closes 100 and 110. -/
def df2 : List Row := [sampleRow 1 100, sampleRow 2 110]

/-- A 2-row series with fractional closes 10.5 and 11.9. -/
def dfFrac : List Row := [sampleRow 1 (21 / 2), sampleRow 2 (119 / 10)]

lemma rollingMean_length (cs : List ℚ) (w : ℕ) :
    (rollingMean cs w).length = cs.length := by
  simp [rollingMean]

lemma closes_length (df : List Row) : (closes df).length = df.length := by
  simp [closes]

lemma rollingMean_getD (cs : List ℚ) (w i : ℕ) (hi : i < cs.length) :
    (rollingMean cs w).getD i none =
      if w ≤ i + 1 then some ((((cs.drop (i + 1 - w)).take w).sum) / (w : ℚ))
      else none := by
  rw [List.getD_eq_getElem?_getD, rollingMean, List.getElem?_map,
    List.getElem?_range hi]
  rfl

lemma attach3_map_MA20 : ∀ (df : List Row) (l1 l2 l3 : List (Option ℚ)),
    df.length = l1.length → df.length = l2.length → df.length = l3.length →
    (attach3 df l1 l2 l3).map RowExt.MA20 = l1
  | [], [], _, _, _, _, _ => rfl
  | r :: rs, a :: l1, b :: l2, c :: l3, h1, h2, h3 => by
      simp only [attach3, List.map_cons]
      refine congrArg (a :: ·) ?_
      exact attach3_map_MA20 rs l1 l2 l3 (by simpa using h1) (by simpa using h2)
        (by simpa using h3)
  | [], a :: l1, _, _, h1, _, _ => by simp at h1
  | r :: rs, [], _, _, h1, _, _ => by simp at h1
  | r :: rs, a :: l1, [], _, _, h2, _ => by simp at h2
  | r :: rs, a :: l1, b :: l2, [], _, _, h3 => by simp at h3

lemma attach3_map_MA60 : ∀ (df : List Row) (l1 l2 l3 : List (Option ℚ)),
    df.length = l1.length → df.length = l2.length → df.length = l3.length →
    (attach3 df l1 l2 l3).map RowExt.MA60 = l2
  | [], _, [], _, _, _, _ => rfl
  | r :: rs, a :: l1, b :: l2, c :: l3, h1, h2, h3 => by
      simp only [attach3, List.map_cons]
      refine congrArg (b :: ·) ?_
      exact attach3_map_MA60 rs l1 l2 l3 (by simpa using h1) (by simpa using h2)
        (by simpa using h3)
  | [], _, b :: l2, _, _, h2, _ => by simp at h2
  | r :: rs, [], _, _, h1, _, _ => by simp at h1
  | r :: rs, a :: l1, [], _, _, h2, _ => by simp at h2
  | r :: rs, a :: l1, b :: l2, [], _, _, h3 => by simp at h3

lemma attach3_map_MA120 : ∀ (df : List Row) (l1 l2 l3 : List (Option ℚ)),
    df.length = l1.length → df.length = l2.length → df.length = l3.length →
    (attach3 df l1 l2 l3).map RowExt.MA120 = l3
  | [], _, _, [], _, _, _ => rfl
  | r :: rs, a :: l1, b :: l2, c :: l3, h1, h2, h3 => by
      simp only [attach3, List.map_cons]
      refine congrArg (c :: ·) ?_
      exact attach3_map_MA120 rs l1 l2 l3 (by simpa using h1) (by simpa using h2)
        (by simpa using h3)
  | [], _, _, c :: l3, _, _, h3 => by simp at h3
  | r :: rs, [], _, _, h1, _, _ => by simp at h1
  | r :: rs, a :: l1, [], _, _, h2, _ => by simp at h2
  | r :: rs, a :: l1, b :: l2, [], _, _, h3 => by simp at h3

lemma attach3_map_date : ∀ (df : List Row) (l1 l2 l3 : List (Option ℚ)),
    df.length = l1.length → df.length = l2.length → df.length = l3.length →
    (attach3 df l1 l2 l3).map RowExt.date = df.map Row.date
  | [], [], _, _, _, _, _ => rfl
  | r :: rs, a :: l1, b :: l2, c :: l3, h1, h2, h3 => by
      simp only [attach3, List.map_cons]
      refine congrArg (r.date :: ·) ?_
      exact attach3_map_date rs l1 l2 l3 (by simpa using h1) (by simpa using h2)
        (by simpa using h3)
  | [], a :: l1, _, _, h1, _, _ => by simp at h1
  | r :: rs, [], _, _, h1, _, _ => by simp at h1
  | r :: rs, a :: l1, [], _, _, h2, _ => by simp at h2
  | r :: rs, a :: l1, b :: l2, [], _, _, h3 => by simp at h3

lemma computeMAs_map_MA20 (df : List Row) :
    (computeMAs df).map RowExt.MA20 = rollingMean (closes df) 20 :=
  attach3_map_MA20 df _ _ _ (by simp [rollingMean_length, closes_length])
    (by simp [rollingMean_length, closes_length])
    (by simp [rollingMean_length, closes_length])

lemma computeMAs_map_MA60 (df : List Row) :
    (computeMAs df).map RowExt.MA60 = rollingMean (closes df) 60 :=
  attach3_map_MA60 df _ _ _ (by simp [rollingMean_length, closes_length])
    (by simp [rollingMean_length, closes_length])
    (by simp [rollingMean_length, closes_length])

lemma computeMAs_map_MA120 (df : List Row) :
    (computeMAs df).map RowExt.MA120 = rollingMean (closes df) 120 :=
  attach3_map_MA120 df _ _ _ (by simp [rollingMean_length, closes_length])
    (by simp [rollingMean_length, closes_length])
    (by simp [rollingMean_length, closes_length])

lemma computeMAs_map_date (df : List Row) :
    (computeMAs df).map RowExt.date = df.map Row.date :=
  attach3_map_date df _ _ _ (by simp [rollingMean_length, closes_length])
    (by simp [rollingMean_length, closes_length])
    (by simp [rollingMean_length, closes_length])

lemma fromExcel_toExcel (l : List RowExt) : fromExcel (toExcel l) = some l := by
  induction l with
  | nil => rfl
  | cons r rs ih =>
      show fromExcel ((r.date, _) :: toExcel rs) = _
      simp only [fromExcel, rowFromExcel, ih]

lemma ma20Last_none (df : List Row) (h1 : 1 ≤ df.length) (h20 : df.length < 20) :
    ma20Last df = none := by
  have hi : df.length - 1 < (closes df).length := by rw [closes_length]; omega
  rw [ma20Last, rollingMean_getD _ _ _ hi, if_neg (by omega)]

lemma ma20Last_some (df : List Row) (h20 : 20 ≤ df.length) :
    ma20Last df =
      some ((((closes df).drop (df.length - 20)).take 20).sum / ((20 : ℕ) : ℚ)) := by
  have hi : df.length - 1 < (closes df).length := by rw [closes_length]; omega
  rw [ma20Last, rollingMean_getD _ _ _ hi, if_pos (by omega),
    show df.length - 1 + 1 - 20 = df.length - 20 from by omega]

lemma renderSeries_of_short (nm cd : String) (df : List Row) (h : df.length < 2) :
    renderSeries nm cd df =
      [Event.caption, Event.subheader nm cd,
       Event.errorMsg (genericError indexErrorDetail)] := by
  unfold renderSeries; rw [if_pos h]

lemma renderSeries_of_zeroPrev (nm cd : String) (df : List Row)
    (h : ¬ df.length < 2) (hp : prevPrice df = 0) :
    renderSeries nm cd df =
      [Event.caption, Event.subheader nm cd,
       Event.errorMsg (genericError zeroDivDetail)] := by
  unfold renderSeries; rw [if_neg h, if_pos hp]

lemma renderSeries_of_noMA (nm cd : String) (df : List Row)
    (h : ¬ df.length < 2) (hp : prevPrice df ≠ 0) (hma : ma20Last df = none) :
    renderSeries nm cd df =
      [Event.caption, Event.subheader nm cd,
       Event.metric1 (currPrice df) (changeVal df) (displayRate (changeRate df)),
       Event.metric2 (lastVolume df),
       Event.errorMsg (genericError nanIntDetail)] := by
  unfold renderSeries; rw [if_neg h, if_neg hp, hma]

lemma renderSeries_of_full (nm cd : String) (df : List Row) (m : ℚ)
    (h : ¬ df.length < 2) (hp : prevPrice df ≠ 0) (hma : ma20Last df = some m) :
    renderSeries nm cd df =
      [Event.caption, Event.subheader nm cd,
       Event.metric1 (currPrice df) (changeVal df) (displayRate (changeRate df)),
       Event.metric2 (lastVolume df),
       Event.metric3 (pyInt m),
       Event.chart,
       Event.dataTable (sortDesc (computeMAs df)),
       Event.excelExport (toExcel (computeMAs df)),
       Event.downloadButton (nm ++ "_주가데이터.xlsx")] := by
  unfold renderSeries; rw [if_neg h, if_neg hp, hma]

lemma decimal_imp_pyIsDigit (c : Char) (h : isDecimalDigitChar c = true) :
    pyIsDigit c = true := by
  simp only [isDecimalDigitChar, Bool.or_eq_true, Bool.and_eq_true,
    decide_eq_true_eq, beq_iff_eq] at h
  simp only [pyIsDigit, Bool.or_eq_true, Bool.and_eq_true, decide_eq_true_eq,
    beq_iff_eq]
  omega

lemma str_isdigit_of_all (s : String) (hlen : s.length = 6)
    (hdig : s.data.all pyIsDigit = true) : str_isdigit s = true := by
  have hne : s.data.isEmpty = false := by
    cases hd : s.data with
    | nil =>
        exfalso
        have : s.length = s.data.length := rfl
        rw [hd] at this
        simp [hlen] at this
    | cons a l => rfl
  simp [str_isdigit, hne, hdig]

lemma lookupByName_find (dir : List (String × String)) (s : String) :
    lookupByName dir s =
      (match dir.find? (fun p => p.1 == s) with
       | some p => Except.ok p.2
       | none => Except.error (notFoundMessage s)) := by
  induction dir with
  | nil => rfl
  | cons p ps ih =>
      by_cases h : (fun q : String × String => q.1 == s) p = true
      · rw [lookupByName,
          @List.filter_cons_of_pos _ (fun q : String × String => q.1 == s) p ps h,
          @List.find?_cons_of_pos _ (fun q : String × String => q.1 == s) p ps h,
          List.map_cons]
      · rw [lookupByName,
          @List.filter_cons_of_neg _ (fun q : String × String => q.1 == s) p ps h,
          @List.find?_cons_of_neg _ (fun q : String × String => q.1 == s) p ps h,
          ← ih, lookupByName]

lemma pyInt_of_den_one (q : ℚ) (h : q.den = 1) : ((pyInt q : ℤ) : ℚ) = q := by
  have hq : ((q.num : ℚ)) = q := (Rat.den_eq_one_iff q).mp h
  unfold pyInt
  split
  · rw [← hq, Int.floor_intCast]
  · rw [← hq, Int.ceil_intCast]

/-- C6: for every price series and every window w in {20, 60, 120}, the
rolling mean at 0-indexed row i is defined iff i ≥ w − 1, and then equals
the arithmetic mean of close[i−w+1 .. i]; each of the three MA columns is
the rolling mean of the Close column for its own window alone, so the
windows are computed independently of each other. -/
theorem rolling_mean_spec (df : List Row) (w i : ℕ)
    (hw : w = 20 ∨ w = 60 ∨ w = 120) (hi : i < df.length) :
    ((rollingMean (closes df) w).getD i none ≠ none ↔ w - 1 ≤ i) ∧
    (w - 1 ≤ i →
      (rollingMean (closes df) w).getD i none =
        some ((((closes df).drop (i + 1 - w)).take w).sum / (w : ℚ))) ∧
    (computeMAs df).map RowExt.MA20 = rollingMean (closes df) 20 ∧
    (computeMAs df).map RowExt.MA60 = rollingMean (closes df) 60 ∧
    (computeMAs df).map RowExt.MA120 = rollingMean (closes df) 120 := by
  have hi' : i < (closes df).length := by rw [closes_length]; exact hi
  have hg := rollingMean_getD (closes df) w i hi'
  have hw1 : 1 ≤ w := by rcases hw with h | h | h <;> omega
  refine ⟨?_, ?_, computeMAs_map_MA20 df, computeMAs_map_MA60 df,
    computeMAs_map_MA120 df⟩
  · rw [hg]
    constructor
    · intro h
      by_contra hlt
      rw [if_neg (by omega)] at h
      exact h rfl
    · intro h
      rw [if_pos (by omega)]
      simp
  · intro h
    rw [hg, if_pos (by omega)]

/-- Witness for C6 at the 20-row sample series, window 20, row 19. -/
theorem rolling_mean_spec_witness :
    ((rollingMean (closes sampleDf20) 20).getD 19 none ≠ none ↔ 20 - 1 ≤ 19) ∧
    (20 - 1 ≤ 19 →
      (rollingMean (closes sampleDf20) 20).getD 19 none =
        some ((((closes sampleDf20).drop (19 + 1 - 20)).take 20).sum /
          ((20 : ℕ) : ℚ))) ∧
    (computeMAs sampleDf20).map RowExt.MA20 = rollingMean (closes sampleDf20) 20 ∧
    (computeMAs sampleDf20).map RowExt.MA60 = rollingMean (closes sampleDf20) 60 ∧
    (computeMAs sampleDf20).map RowExt.MA120 =
      rollingMean (closes sampleDf20) 120 :=
  rolling_mean_spec sampleDf20 20 19 (Or.inl rfl) (by decide)

/-- C7: a 6-character input consisting entirely of decimal digits is
returned unchanged as the ticker, and the result does not depend on the
directory fetch at all (the fast path never consults the directory). -/
theorem ticker_fast_path (raw raw' : Except String (List (String × Nat)))
    (s : String) (hlen : s.length = 6)
    (hdig : s.data.all isDecimalDigitChar = true) :
    get_stock_code_by_company raw s = Except.ok s ∧
    get_stock_code_by_company raw s = get_stock_code_by_company raw' s := by
  have hall : s.data.all pyIsDigit = true := by
    rw [List.all_eq_true] at hdig ⊢
    exact fun c hc => decimal_imp_pyIsDigit c (hdig c hc)
  have hfast : str_isdigit s = true := str_isdigit_of_all s hlen hall
  constructor
  · unfold get_stock_code_by_company
    rw [if_pos ⟨hfast, hlen⟩]
  · unfold get_stock_code_by_company
    rw [if_pos ⟨hfast, hlen⟩, if_pos ⟨hfast, hlen⟩]

/-- Witness for C7 at the literal ticker "005930" against two different
directory fetch outcomes. -/
theorem ticker_fast_path_witness :
    get_stock_code_by_company (Except.ok []) "005930" = Except.ok "005930" ∧
    get_stock_code_by_company (Except.ok []) "005930" =
      get_stock_code_by_company (Except.error "HTTPError") "005930" :=
  ticker_fast_path (Except.ok []) (Except.error "HTTPError") "005930"
    (by decide) (by decide)

/-- C9: on a transport or parse failure of the listing fetch, the directory
loader returns the empty directory and signals the distinct "directory
unavailable" condition (the error banner) instead of propagating the raw
error, and the literal 6-digit ticker fast path still resolves. -/
theorem directory_failure_degrades (e s : String)
    (hdig : str_isdigit s = true) (hlen : s.length = 6) :
    get_krx_company_list (Except.error e) = ([], true) ∧
    get_stock_code_by_company (Except.error e) s = Except.ok s := by
  refine ⟨rfl, ?_⟩
  unfold get_stock_code_by_company
  rw [if_pos ⟨hdig, hlen⟩]

/-- Witness for C9 at a failed fetch and the literal ticker "005930". -/
theorem directory_failure_degrades_witness :
    get_krx_company_list (Except.error "HTTPError") = ([], true) ∧
    get_stock_code_by_company (Except.error "HTTPError") "005930" =
      Except.ok "005930" :=
  directory_failure_degrades "HTTPError" "005930" (by decide) (by decide)

/-- C10: the fast path is taken for every 6-character input all of whose
characters satisfy Python str.isdigit — including non-ASCII digits such as
fullwidth and superscript digit characters — returning the input unchanged
with no dependence on the directory; every input not of this shape goes to
the directory name lookup. -/
theorem unicode_digit_fast_path (raw raw' : Except String (List (String × Nat)))
    (s t : String) (hlen : s.length = 6) (hdig : s.data.all pyIsDigit = true)
    (ht : ¬ (str_isdigit t = true ∧ t.length = 6)) :
    get_stock_code_by_company raw s = Except.ok s ∧
    get_stock_code_by_company raw s = get_stock_code_by_company raw' s ∧
    get_stock_code_by_company raw t =
      lookupByName (get_krx_company_list raw).1 t := by
  have hfast : str_isdigit s = true := str_isdigit_of_all s hlen hdig
  refine ⟨?_, ?_, ?_⟩
  · unfold get_stock_code_by_company
    rw [if_pos ⟨hfast, hlen⟩]
  · unfold get_stock_code_by_company
    rw [if_pos ⟨hfast, hlen⟩, if_pos ⟨hfast, hlen⟩]
  · unfold get_stock_code_by_company
    rw [if_neg ht]

/-- Witness for C10 at the superscript-digit input "²³¹²³¹" (which Python
str.isdigit accepts although it is not decimal) and the non-ticker-shaped
input "abc". -/
theorem unicode_digit_fast_path_witness :
    get_stock_code_by_company (Except.ok []) "²³¹²³¹" = Except.ok "²³¹²³¹" ∧
    get_stock_code_by_company (Except.ok []) "²³¹²³¹" =
      get_stock_code_by_company (Except.ok [("삼성전자", 5930)]) "²³¹²³¹" ∧
    get_stock_code_by_company (Except.ok []) "abc" =
      lookupByName (get_krx_company_list (Except.ok [])).1 "abc" :=
  unicode_digit_fast_path (Except.ok []) (Except.ok [("삼성전자", 5930)])
    "²³¹²³¹" "abc" (by decide) (by decide) (by decide)

/-- C8: for a non-ticker-shaped input, resolution is the exact
case-sensitive first match over company display names: the result is the
ticker of the first directory row whose name equals the input, and with
zero matches it is the lookup failure whose message carries the input
followed by the hint to retry with a literal 6-digit ticker; in the
zero-match case the outcome of a click is the same for every price fetcher,
i.e. no price fetch is ever attempted. -/
theorem name_lookup_spec (raw : Except String (List (String × Nat)))
    (s : String) (n : ℕ) (fetch fetch' : String → List Row)
    (hshape : ¬ (str_isdigit s = true ∧ s.length = 6)) :
    get_stock_code_by_company raw s =
      (match (get_krx_company_list raw).1.find? (fun p => p.1 == s) with
       | some p => Except.ok p.2
       | none => Except.error (notFoundMessage s)) ∧
    notFoundMessage s =
      s ++ "을 찾을 수 없습니다. 종목코드 6자리를 직접 입력해보세요." ∧
    ((get_krx_company_list raw).1.find? (fun p => p.1 == s) = none →
      get_stock_code_by_company raw s = Except.error (notFoundMessage s) ∧
      runMain raw s n fetch = runMain raw s n fetch') := by
  have hbody : get_stock_code_by_company raw s =
      lookupByName (get_krx_company_list raw).1 s := by
    unfold get_stock_code_by_company
    rw [if_neg hshape]
  refine ⟨by rw [hbody, lookupByName_find], rfl, fun hmiss => ?_⟩
  have herr : get_stock_code_by_company raw s =
      Except.error (notFoundMessage s) := by
    rw [hbody, lookupByName_find, hmiss]
  refine ⟨herr, ?_⟩
  unfold runMain
  by_cases h0 : s = ""
  · rw [if_pos h0, if_pos h0]
  · rw [if_neg h0, if_neg h0]
    by_cases h1 : n < 2
    · rw [if_pos h1, if_pos h1]
    · rw [if_neg h1, if_neg h1, herr]

/-- Witness for C8 at a name with zero directory matches, shown against two
different price fetchers. -/
theorem name_lookup_spec_witness :
    get_stock_code_by_company (Except.ok [("회사", 123)]) "삼성전자" =
      (match (get_krx_company_list (Except.ok [("회사", 123)])).1.find?
          (fun p => p.1 == "삼성전자") with
       | some p => Except.ok p.2
       | none => Except.error (notFoundMessage "삼성전자")) ∧
    notFoundMessage "삼성전자" =
      "삼성전자" ++ "을 찾을 수 없습니다. 종목코드 6자리를 직접 입력해보세요." ∧
    ((get_krx_company_list (Except.ok [("회사", 123)])).1.find?
        (fun p => p.1 == "삼성전자") = none →
      get_stock_code_by_company (Except.ok [("회사", 123)]) "삼성전자" =
        Except.error (notFoundMessage "삼성전자") ∧
      runMain (Except.ok [("회사", 123)]) "삼성전자" 2 (fun _ => []) =
        runMain (Except.ok [("회사", 123)]) "삼성전자" 2 (fun _ => df2)) :=
  name_lookup_spec (Except.ok [("회사", 123)]) "삼성전자" 2 (fun _ => [])
    (fun _ => df2) (by decide)

/-- Counterexample to C5: on a concrete 20-row series (closes 1..20) the
20-day rolling mean is NOT undefined for all rows — at row index 19 it is
defined and equals 21/2, the mean of the 20 closes. -/
theorem ma20_defined_at_20_cex :
    (rollingMean (closes sampleDf20) 20).getD 19 none = some (21 / 2) ∧
    (rollingMean (closes sampleDf20) 20).getD 19 none ≠ none := by
  have h : (rollingMean (closes sampleDf20) 20).getD 19 none = some (21 / 2) := by
    rw [rollingMean_getD (closes sampleDf20) 20 19
      (by norm_num [closes, sampleDf20]), if_pos (by omega)]
    norm_num [closes, sampleDf20, sampleRow]
  refine ⟨h, by rw [h]; simp⟩

/-- C5 as amended: for a series of exactly 20 trading rows, the 20-day
rolling mean is undefined for the first 19 rows and defined at the 20th
row, where it equals the mean of all 20 closes; the summary snapshot is
still computed from rows 19 and 20 (the metric panel uses
close[18] and close[19], truncated to int). -/
theorem twenty_row_series (nm cd : String) (df : List Row)
    (h20 : df.length = 20) (hprev : prevPrice df ≠ 0) :
    (rollingMean (closes df) 20).take 19 = List.replicate 19 none ∧
    (rollingMean (closes df) 20).getD 19 none =
      some ((closes df).sum / ((20 : ℕ) : ℚ)) ∧
    Event.metric1 (currPrice df) (changeVal df) (displayRate (changeRate df)) ∈
      renderSeries nm cd df ∧
    currPrice df = pyInt ((closes df).getD 19 0) ∧
    prevPrice df = pyInt ((closes df).getD 18 0) := by
  have hcl : (closes df).length = 20 := by rw [closes_length, h20]
  refine ⟨?_, ?_, ?_, ?_, ?_⟩
  · apply List.ext_getElem?
    intro k
    rw [List.getElem?_take, List.getElem?_replicate]
    by_cases hk : k < 19
    · rw [if_pos hk, if_pos hk, rollingMean, List.getElem?_map,
        List.getElem?_range (by omega), Option.map_some', if_neg (by omega)]
    · rw [if_neg hk, if_neg hk]
  · rw [rollingMean_getD (closes df) 20 19 (by omega), if_pos (by omega)]
    norm_num
    rw [List.take_of_length_le (by omega)]
  · have hma := ma20Last_some df (by omega)
    rw [renderSeries_of_full nm cd df _ (by omega) hprev hma]
    simp
  · rw [currPrice, h20]
  · rw [prevPrice, h20]

/-- Witness for C5 at the concrete 20-row sample series. -/
theorem twenty_row_series_witness :
    (rollingMean (closes sampleDf20) 20).take 19 = List.replicate 19 none ∧
    (rollingMean (closes sampleDf20) 20).getD 19 none =
      some ((closes sampleDf20).sum / ((20 : ℕ) : ℚ)) ∧
    Event.metric1 (currPrice sampleDf20) (changeVal sampleDf20)
        (displayRate (changeRate sampleDf20)) ∈
      renderSeries "삼성전자" "005930" sampleDf20 ∧
    currPrice sampleDf20 = pyInt ((closes sampleDf20).getD 19 0) ∧
    prevPrice sampleDf20 = pyInt ((closes sampleDf20).getD 18 0) :=
  twenty_row_series "삼성전자" "005930" sampleDf20 rfl
    (by norm_num [prevPrice, closes, sampleDf20, sampleRow, pyInt])

lemma toExcel_map_fst (l : List RowExt) :
    (toExcel l).map Prod.fst = l.map RowExt.date := by
  simp [toExcel]

/-- Counterexample to C3: with fractional closes 10.5 and 11.9, the
displayed change is int(11.9) − int(10.5) = 1, which differs from the exact
difference 11.9 − 10.5 = 1.4. -/
theorem change_truncation_cex :
    Event.metric1 11 1 10 ∈ renderSeries "A" "B" dfFrac ∧
    ((11 - 10 : ℤ) : ℚ) ≠ (119 / 10 : ℚ) - (21 / 2 : ℚ) := by
  constructor
  · have hcurr : currPrice dfFrac = 11 := by
      norm_num [currPrice, closes, dfFrac, sampleRow, pyInt]
    have hprev : prevPrice dfFrac = 10 := by
      norm_num [prevPrice, closes, dfFrac, sampleRow, pyInt]
    have hch : changeVal dfFrac = 1 := by rw [changeVal, hcurr, hprev]; norm_num
    have hrate : displayRate (changeRate dfFrac) = 10 := by
      rw [changeRate, hch, hprev]
      norm_num [displayRate]
    rw [renderSeries_of_noMA "A" "B" dfFrac (by norm_num [dfFrac])
      (by rw [hprev]; norm_num)
      (ma20Last_none dfFrac (by norm_num [dfFrac]) (by norm_num [dfFrac])),
      hcurr, hch, hrate]
    simp
  · norm_num

/-- C3 as amended: for every series with at least 2 rows (and nonzero
truncated previous close), the displayed change equals
int(close[last]) − int(close[last−1]) with Python int truncation, the
displayed change rate is change / int(close[last−1]) × 100 rounded to
2 decimals for display, and whenever both closes are integral the change
coincides with the exact difference close[last] − close[last−1]. -/
theorem change_formula (nm cd : String) (df : List Row) (h2 : 2 ≤ df.length)
    (hprev : prevPrice df ≠ 0) :
    Event.metric1 (currPrice df) (changeVal df) (displayRate (changeRate df)) ∈
      renderSeries nm cd df ∧
    changeVal df = currPrice df - prevPrice df ∧
    changeRate df = ((changeVal df : ℚ) / (prevPrice df : ℚ)) * 100 ∧
    currPrice df = pyInt ((closes df).getD (df.length - 1) 0) ∧
    prevPrice df = pyInt ((closes df).getD (df.length - 2) 0) ∧
    ((closes df).all (fun q => q.den == 1) = true →
      ((changeVal df : ℤ) : ℚ) =
        (closes df).getD (df.length - 1) 0 -
          (closes df).getD (df.length - 2) 0) := by
  refine ⟨?_, rfl, rfl, rfl, rfl, ?_⟩
  · rcases hma : ma20Last df with _ | m
    · rw [renderSeries_of_noMA nm cd df (by omega) hprev hma]
      simp
    · rw [renderSeries_of_full nm cd df m (by omega) hprev hma]
      simp
  · intro hall
    have hi1 : df.length - 1 < (closes df).length := by rw [closes_length]; omega
    have hi2 : df.length - 2 < (closes df).length := by rw [closes_length]; omega
    have e1 : (closes df).getD (df.length - 1) 0 =
        (closes df).get ⟨df.length - 1, hi1⟩ := by
      rw [List.getD_eq_getElem?_getD, List.getElem?_eq_getElem hi1]
      rfl
    have e2 : (closes df).getD (df.length - 2) 0 =
        (closes df).get ⟨df.length - 2, hi2⟩ := by
      rw [List.getD_eq_getElem?_getD, List.getElem?_eq_getElem hi2]
      rfl
    rw [List.all_eq_true] at hall
    have hd1 : ((closes df).getD (df.length - 1) 0).den = 1 := by
      rw [e1]
      exact beq_iff_eq.mp (hall _ (List.get_mem _ _ _))
    have hd2 : ((closes df).getD (df.length - 2) 0).den = 1 := by
      rw [e2]
      exact beq_iff_eq.mp (hall _ (List.get_mem _ _ _))
    have hq1 := pyInt_of_den_one _ hd1
    have hq2 := pyInt_of_den_one _ hd2
    show ((currPrice df - prevPrice df : ℤ) : ℚ) = _
    push_cast
    unfold currPrice prevPrice
    rw [hq1, hq2]

/-- Witness for C3 at the 2-row series with closes 100 and 110. -/
theorem change_formula_witness :
    Event.metric1 (currPrice df2) (changeVal df2)
        (displayRate (changeRate df2)) ∈ renderSeries "A" "B" df2 ∧
    changeVal df2 = currPrice df2 - prevPrice df2 ∧
    changeRate df2 = ((changeVal df2 : ℚ) / (prevPrice df2 : ℚ)) * 100 ∧
    currPrice df2 = pyInt ((closes df2).getD (df2.length - 1) 0) ∧
    prevPrice df2 = pyInt ((closes df2).getD (df2.length - 2) 0) ∧
    ((closes df2).all (fun q => q.den == 1) = true →
      ((changeVal df2 : ℤ) : ℚ) =
        (closes df2).getD (df2.length - 1) 0 -
          (closes df2).getD (df2.length - 2) 0) :=
  change_formula "A" "B" df2 (by norm_num [df2])
    (by norm_num [prevPrice, closes, df2, sampleRow, pyInt])

/-- Counterexample to C4: the exported sheet of the 20-row sample series
keeps the series' original ascending date order 0..19, which is not
descending by date. -/
theorem export_order_cex :
    Event.excelExport (toExcel (computeMAs sampleDf20)) ∈
      renderSeries "A" "B" sampleDf20 ∧
    (toExcel (computeMAs sampleDf20)).map Prod.fst =
      [0, 1, 2, 3, 4, 5, 6, 7, 8, 9, 10, 11, 12, 13, 14, 15, 16, 17, 18, 19] ∧
    ¬ List.Sorted (· ≥ ·) ((toExcel (computeMAs sampleDf20)).map Prod.fst) := by
  have hdates : (toExcel (computeMAs sampleDf20)).map Prod.fst =
      [0, 1, 2, 3, 4, 5, 6, 7, 8, 9, 10, 11, 12, 13, 14, 15, 16, 17, 18, 19] := by
    rw [toExcel_map_fst, computeMAs_map_date]
    simp [sampleDf20, sampleRow]
  refine ⟨?_, hdates, ?_⟩
  · rw [renderSeries_of_full "A" "B" sampleDf20 _ (by norm_num [sampleDf20])
      (by norm_num [prevPrice, closes, sampleDf20, sampleRow, pyInt])
      (ma20Last_some sampleDf20 (by norm_num [sampleDf20]))]
    simp
  · rw [hdates]
    decide

/-- C4 as amended: the tabular export serializes the full computed series
(all columns, date as row index, one sheet) in the series' original
ascending chronological order, and re-reading the exported sheet reproduces
the same dates, values and row order; only the on-screen table is sorted
descending by date. -/
theorem export_roundtrip (nm cd : String) (df : List Row)
    (h20 : 20 ≤ df.length) (hprev : prevPrice df ≠ 0) :
    Event.excelExport (toExcel (computeMAs df)) ∈ renderSeries nm cd df ∧
    Event.dataTable (sortDesc (computeMAs df)) ∈ renderSeries nm cd df ∧
    fromExcel (toExcel (computeMAs df)) = some (computeMAs df) ∧
    (toExcel (computeMAs df)).map Prod.fst = df.map Row.date := by
  rw [renderSeries_of_full nm cd df _ (by omega) hprev
    (ma20Last_some df (by omega))]
  refine ⟨by simp, by simp, fromExcel_toExcel _, ?_⟩
  rw [toExcel_map_fst, computeMAs_map_date]

/-- Witness for C4 at the 20-row sample series. -/
theorem export_roundtrip_witness :
    Event.excelExport (toExcel (computeMAs sampleDf20)) ∈
      renderSeries "A" "B" sampleDf20 ∧
    Event.dataTable (sortDesc (computeMAs sampleDf20)) ∈
      renderSeries "A" "B" sampleDf20 ∧
    fromExcel (toExcel (computeMAs sampleDf20)) = some (computeMAs sampleDf20) ∧
    (toExcel (computeMAs sampleDf20)).map Prod.fst =
      sampleDf20.map Row.date :=
  export_roundtrip "A" "B" sampleDf20 (by norm_num [sampleDf20])
    (by norm_num [prevPrice, closes, sampleDf20, sampleRow, pyInt])

/-- Counterexample to C1: a fetched 1-row series (fewer than 2 rows) does
NOT produce the distinct "no data" state — IndexError from iloc[-2] is
caught by the top-level handler, so the trace ends in the generic error
message, with no info event and no summary metrics. -/
theorem one_row_series_generic_error :
    runMain (Except.ok []) "005930" 2 (fun _ => [sampleRow 1 100]) =
      [Event.caption, Event.subheader "005930" "005930",
       Event.errorMsg (genericError indexErrorDetail)] ∧
    Event.info noDataMsg ∉
      runMain (Except.ok []) "005930" 2 (fun _ => [sampleRow 1 100]) ∧
    hasMetrics
      (runMain (Except.ok []) "005930" 2 (fun _ => [sampleRow 1 100])) =
      false := by
  have hrun : runMain (Except.ok []) "005930" 2 (fun _ => [sampleRow 1 100]) =
      [Event.caption, Event.subheader "005930" "005930",
       Event.errorMsg (genericError indexErrorDetail)] := rfl
  refine ⟨hrun, ?_, ?_⟩
  · rw [hrun]
    simp [noDataMsg, genericError, indexErrorDetail]
  · rw [hrun]
    rfl

/-- C1 as amended: the distinct "no data" state is emitted exactly for an
empty (0-row) fetched series; a 1-row series instead aborts through the
generic error handler (caption and subheader already rendered, no summary
metrics, no "no data" state); summary metric panels render only when the
series has at least 2 rows. -/
theorem insufficient_data_states (raw : Except String (List (String × Nat)))
    (s cd : String) (n : ℕ) (fetch : String → List Row)
    (hs : s ≠ "") (hn : 2 ≤ n)
    (hres : get_stock_code_by_company raw s = Except.ok cd) :
    (fetch cd = [] → runMain raw s n fetch = [Event.info noDataMsg]) ∧
    ((fetch cd).length = 1 → runMain raw s n fetch =
        [Event.caption, Event.subheader s cd,
         Event.errorMsg (genericError indexErrorDetail)]) ∧
    ((fetch cd).length < 2 → hasMetrics (runMain raw s n fetch) = false) := by
  have hrun : runMain raw s n fetch =
      if (fetch cd).isEmpty then [Event.info noDataMsg]
      else renderSeries s cd (fetch cd) := by
    unfold runMain
    rw [if_neg hs, if_neg (by omega : ¬ n < 2), hres]
  refine ⟨?_, ?_, ?_⟩
  · intro h
    rw [hrun, h]
    rfl
  · intro h
    have hne : (fetch cd).isEmpty = false := by
      cases hf : fetch cd with
      | nil => rw [hf] at h; simp at h
      | cons a l => rfl
    rw [hrun, if_neg (by simp [hne])]
    exact renderSeries_of_short s cd (fetch cd) (by omega)
  · intro h
    rw [hrun]
    by_cases he : (fetch cd).isEmpty = true
    · rw [if_pos he]
      rfl
    · rw [if_neg he, renderSeries_of_short s cd (fetch cd) (by omega)]
      rfl

/-- Witness for C1 with a fetcher returning a 1-row series for the literal
ticker "005930". -/
theorem insufficient_data_states_witness :
    ((fun _ : String => [sampleRow 1 100]) "005930" = [] →
      runMain (Except.ok []) "005930" 2 (fun _ => [sampleRow 1 100]) =
        [Event.info noDataMsg]) ∧
    (((fun _ : String => [sampleRow 1 100]) "005930").length = 1 →
      runMain (Except.ok []) "005930" 2 (fun _ => [sampleRow 1 100]) =
        [Event.caption, Event.subheader "005930" "005930",
         Event.errorMsg (genericError indexErrorDetail)]) ∧
    (((fun _ : String => [sampleRow 1 100]) "005930").length < 2 →
      hasMetrics
        (runMain (Except.ok []) "005930" 2 (fun _ => [sampleRow 1 100])) =
        false) :=
  insufficient_data_states (Except.ok []) "005930" "005930" 2
    (fun _ => [sampleRow 1 100]) (by decide) (by omega) rfl

lemma renderSeries_df2 :
    renderSeries "A" "B" df2 =
      [Event.caption, Event.subheader "A" "B",
       Event.metric1 (currPrice df2) (changeVal df2)
         (displayRate (changeRate df2)),
       Event.metric2 (lastVolume df2),
       Event.errorMsg (genericError nanIntDetail)] :=
  renderSeries_of_noMA "A" "B" df2 (by norm_num [df2])
    (by norm_num [prevPrice, closes, df2, sampleRow, pyInt])
    (ma20Last_none df2 (by norm_num [df2]) (by norm_num [df2]))

/-- Counterexample to C2: on a 2-row fetched series the pipeline aborts at
int(NaN) of the latest 20-day mean AFTER the price and volume metric panels
already rendered — the trace holds both metrics and the generic error but
no chart, so a strict partial render is shown. -/
theorem two_row_mixed_render_cex :
    hasError (renderSeries "A" "B" df2) = true ∧
    hasMetrics (renderSeries "A" "B" df2) = true ∧
    hasChart (renderSeries "A" "B" df2) = false := by
  rw [renderSeries_df2]
  exact ⟨rfl, rfl, rfl⟩

/-- C2 as amended: when rendering of a fetched non-empty series aborts, the
failure is surfaced as exactly one generic error message which is the final
rendered element, and no chart, table or export renders after it — but
summary metrics already rendered before the failing step remain visible, so
the summary/chart/table triad can render partially. -/
theorem abort_truncates_render (nm cd : String) (df : List Row)
    (herr : hasError (renderSeries nm cd df) = true) :
    countErrors (renderSeries nm cd df) = 1 ∧
    lastIsError (renderSeries nm cd df) = true ∧
    hasChart (renderSeries nm cd df) = false ∧
    hasTable (renderSeries nm cd df) = false ∧
    hasExport (renderSeries nm cd df) = false := by
  by_cases h2 : df.length < 2
  · rw [renderSeries_of_short nm cd df h2]
    exact ⟨rfl, rfl, rfl, rfl, rfl⟩
  · by_cases hp : prevPrice df = 0
    · rw [renderSeries_of_zeroPrev nm cd df h2 hp]
      exact ⟨rfl, rfl, rfl, rfl, rfl⟩
    · rcases hma : ma20Last df with _ | m
      · rw [renderSeries_of_noMA nm cd df h2 hp hma]
        exact ⟨rfl, rfl, rfl, rfl, rfl⟩
      · rw [renderSeries_of_full nm cd df m h2 hp hma] at herr
        simp [hasError, isError] at herr

/-- Witness for C2 at the aborting 2-row series. -/
theorem abort_truncates_render_witness :
    countErrors (renderSeries "A" "B" df2) = 1 ∧
    lastIsError (renderSeries "A" "B" df2) = true ∧
    hasChart (renderSeries "A" "B" df2) = false ∧
    hasTable (renderSeries "A" "B" df2) = false ∧
    hasExport (renderSeries "A" "B" df2) = false :=
  abort_truncates_render "A" "B" df2 (by rw [renderSeries_df2]; rfl)

end StockApp
